import Mathlib

/-! Verification of the resilient WebSocket connection client
(`src/services/WebSocketClient.js`) of the BoeTracker repository.

The JavaScript module is shallowly embedded as follows.

* URL and token composition (`normalizeBase`, `joinUrl`, `_buildUrl`) is
  modelled over `Str := List Char` (a JS string as its character sequence).
* The connection manager is modelled as an explicit state machine
  (`Client`, `Event`, `step`): browser/transport callbacks (`onopen`,
  `onmessage`, `onclose`, `onerror`, timer callbacks, the
  visibility/online/offline listeners) and the public operations
  (`send`, `updateToken`, `close`, `onMessage`, `offMessage`) become
  events; each JS timer becomes an armed/pending field on the state; the
  data handed to the transport and the emitted status callbacks are
  recorded in logs on the state.
* Platform primitives are not repository code and are abstracted at the
  boundary: `JSON.parse` is modelled by letting an inbound frame event
  carry the already-decoded payload (`JsVal`, covering the parse-failure
  fallback as `JsVal.str`); `JSON.stringify` of an outbound payload is
  modelled by `send` events carrying the already-encoded string; the
  `WebSocket` handle is abstracted to its ready state, and its
  asynchronous callbacks are the transport events above.
* `_connect` is `async` and suspends at `await this._buildUrl()`; this is
  modelled by a `pendingConnect` counter: starting `_connect` increments
  it, and a separate `connectResume` event models the suspended body
  resuming after the await.
-/

namespace WS

/-- A JS string, embedded as its sequence of characters. -/
abbrev Str := List Char

/-- `base.trim()` — strip leading and trailing whitespace. -/
def jsTrim (s : Str) : Str :=
  ((s.dropWhile Char.isWhitespace).reverse.dropWhile Char.isWhitespace).reverse

/-- `.replace(/\/+$/, "")` — strip trailing slashes. -/
def stripTrailingSlashes (s : Str) : Str :=
  (s.reverse.dropWhile (fun c => c == '/')).reverse

/-- `normalizeBase` (WebSocketClient.js lines 10-16): empty base stays
empty; otherwise trim, strip trailing slashes, rewrite a leading
`http://` to `ws://` and a leading `https://` to `wss://`. -/
def normalizeBase (base : Str) : Str :=
  if base.isEmpty then []
  else
    let b0 := stripTrailingSlashes (jsTrim base)
    let b1 := if "http://".data.isPrefixOf b0 then "ws://".data ++ b0.drop 7 else b0
    if "https://".data.isPrefixOf b1 then "wss://".data ++ b1.drop 8 else b1

/-- `joinUrl` (lines 19-23): join normalized base and path with exactly
one separating slash; an empty path contributes nothing. -/
def joinUrl (base path : Str) : Str :=
  let p := if path.isEmpty then []
           else if "/".data.isPrefixOf path then path else '/' :: path
  normalizeBase base ++ p

/-- JS truthiness of a string-or-undefined value (`!tk`):
`undefined` (`none`) and the empty string are falsy. -/
def strTruthy : Option Str → Bool
  | none => false
  | some s => !s.isEmpty

/-- Token resolution inside `_buildUrl` (lines 100-103): start from the
stored token; if it is falsy, use what the async provider resolves to
(`providerResult`, `none` when the provider is absent or rejects — the
rejection is caught and only logged). -/
def resolveTok (token providerResult : Option Str) : Option Str :=
  if strTruthy token then token
  else
    match providerResult with
    | some v => some v
    | none => token

/-- Uppercase hex digit of a value below 16, as `encodeURIComponent`
produces. -/
def hexDigitChar (n : Nat) : Char :=
  if n < 10 then Char.ofNat (48 + n) else Char.ofNat (55 + n)

/-- UTF-8 byte sequence of a Unicode scalar value. -/
def utf8Bytes (n : Nat) : List Nat :=
  if n < 128 then [n]
  else if n < 2048 then [192 + n / 64, 128 + n % 64]
  else if n < 65536 then [224 + n / 4096, 128 + (n / 64) % 64, 128 + n % 64]
  else [240 + n / 262144, 128 + (n / 4096) % 64, 128 + (n / 64) % 64, 128 + n % 64]

/-- `%XX` expansion of one byte. -/
def percentEncodeByte (b : Nat) : Str :=
  ['%', hexDigitChar (b / 16), hexDigitChar (b % 16)]

/-- Characters `encodeURIComponent` leaves unescaped:
`A-Z a-z 0-9 - _ . ! ~ * ' ( )`. -/
def isUnreservedChar (c : Char) : Bool :=
  c.isAlpha || c.isDigit || c == '-' || c == '_' || c == '.' || c == '!' ||
  c == '~' || c == '*' || c == Char.ofNat 39 || c == '(' || c == ')'

/-- The platform `encodeURIComponent`: unreserved characters pass
through, every other character is percent-encoded per UTF-8 byte. -/
def encodeURIComponent (s : Str) : Str :=
  s.foldr
    (fun c acc =>
      (if isUnreservedChar c then [c]
       else ((utf8Bytes c.toNat).map percentEncodeByte).flatten) ++ acc)
    []

/-- `_buildUrl` (lines 98-107): join base with the path (`this.path ||
"/ws"`), resolve the token, and append `token=` with the
percent-encoded credential after `?` (or `&` if the URL already carries
a query) exactly when the resolved token is truthy. -/
def buildUrl (base path : Str) (token providerResult : Option Str) : Str :=
  let baseUrl := joinUrl base (if path.isEmpty then "/ws".data else path)
  match resolveTok token providerResult with
  | none => baseUrl
  | some t =>
    if t.isEmpty then baseUrl
    else
      let sep : Str := if baseUrl.contains '?' then ['&'] else ['?']
      baseUrl ++ sep ++ "token=".data ++ encodeURIComponent t

/-- Decoded inbound payload, i.e. the result of the `JSON.parse` attempt
in `onmessage` (a parse failure keeps the raw string, `JsVal.str`). -/
inductive JsVal where
  | str (s : String)
  | num (n : Int)
  | boolean (b : Bool)
  | null
  | obj (fields : List (String × JsVal))
  | arr (elems : List JsVal)

/-- `payload.type` — first binding of the `type` field of an object. -/
def lookupField (k : String) : List (String × JsVal) → Option JsVal
  | [] => none
  | (k', v) :: t => if k' = k then some v else lookupField k t

/-- Pong detection (line 147): the decoded payload is an object whose
`type` field equals `"pong"`, or the literal string `"pong"`. -/
def isPong : JsVal → Bool
  | JsVal.obj fs =>
    match lookupField "type" fs with
    | some (JsVal.str s) => s == "pong"
    | _ => false
  | JsVal.str s => s == "pong"
  | _ => false

/-- A registered subscriber handler: an identity plus whether invoking
it raises. -/
structure Handler where
  id : Nat
  throws : Bool
deriving DecidableEq

/-- Invoking one handler: raises exactly when the handler is faulty. -/
def handlerCall (h : Handler) : Except String Unit :=
  if h.throws then Except.error "[WS] Handler error:" else Except.ok ()

/-- `this.subscribers.forEach((h) => { try { h(dataToSend) } catch (e)
{ console.error(...) } })` (line 152): every handler is invoked with the
payload; a raising handler is caught (the error is only logged), so the
iteration continues either way. Returns the list of invocations. -/
def dispatchSubs (p : JsVal) : List Handler → List (Nat × JsVal)
  | [] => []
  | h :: t =>
    match handlerCall h with
    | Except.ok _ => (h.id, p) :: dispatchSubs p t
    | Except.error _ => (h.id, p) :: dispatchSubs p t

/-- `WebSocket.readyState` of the live transport handle. -/
inductive ReadyState where
  | connecting
  | opened
  | closing
  | closed
deriving DecidableEq

/-- The `onopen` drain loop (lines 129-131): `while (this.queue.length
&& this.socket?.readyState === WebSocket.OPEN) this.socket.send(
this.queue.shift())`. `rs i` is what `this.socket?.readyState` reads at
the `i`-th iteration. Returns (data sent in order, remaining queue). -/
def drainLoop (rs : Nat → Option ReadyState) : Nat → List String → List String × List String
  | _, [] => ([], [])
  | i, x :: xs =>
    if rs i = some ReadyState.opened then
      let r := drainLoop rs (i + 1) xs
      (x :: r.1, r.2)
    else ([], x :: xs)

/-- The queue branch of `send` (lines 241-245): if the queue has reached
`queueMax`, shift the oldest entry, then push the new data. -/
def enqueue (queueMax : Nat) (q : List String) (d : String) : List String :=
  (if queueMax ≤ q.length then q.tail else q) ++ [d]

/-- `_scheduleReconnect`'s delay (lines 176-177): full-jitter capped
exponential backoff, `Math.floor(Math.random() * min(300 * 2^retries,
maxBackoff))`, where `r` is the value drawn by `Math.random()`. -/
def scheduleDelay (retries maxBackoff : Nat) (r : ℚ) : ℤ :=
  Int.floor (r * ((min (300 * 2 ^ retries) maxBackoff : Nat) : ℚ))

/-- The keepalive frame `JSON.stringify({ type: "ping", ts: Date.now() })`. -/
def pingWire (ts : Nat) : String :=
  "\x7b\"type\":\"ping\",\"ts\":" ++ toString ts ++ "\x7d"

/-- The mutable state of a `WebSocketClient` instance, plus logs of its
outputs (`sent`: data handed to the transport; `statuses`: status
callback emissions; `delivered`: subscriber invocations). Timers are
modelled by whether they are armed: `reconnectTimer` holds the pending
delay of `this._reconnectTimer`, `pingTimer`/`pongTimer` whether the
interval/timeout is armed. `pendingConnect` counts `_connect` bodies
suspended at `await this._buildUrl()`. -/
structure Client where
  base : String
  path : String
  token : Option String
  queueMax : Nat
  maxBackoff : Nat
  pingInterval : Nat
  pongTimeout : Nat
  socket : Option ReadyState
  subs : List Handler
  queue : List String
  retries : Nat
  closing : Bool
  pingTimer : Bool
  pongTimer : Bool
  reconnectTimer : Option Nat
  pendingConnect : Nat
  sent : List String
  statuses : List String
  delivered : List (Nat × JsVal)

/-- The events a client instance reacts to: transport callbacks, timer
firings, browser listeners, and the public operations. `closeEvt r`
carries the `Math.random()` draw used by `_scheduleReconnect`;
`msgEvt p` carries the decoded inbound payload; `sendOp d` carries the
already-encoded outbound payload. -/
inductive Event where
  | connectResume
  | openEvt
  | closeEvt (r : ℚ)
  | errorEvt
  | msgEvt (p : JsVal)
  | sendOp (d : String)
  | updateTok (next : Option String)
  | closeOp
  | onlineEvt
  | offlineEvt
  | hiddenEvt
  | visibleEvt
  | reconnectFire
  | pingFire (ts : Nat)
  | pongTimeoutFire
  | subscribeOp (h : Handler)
  | unsubscribeOp (h : Handler)

/-- One step of the client, from the source of WebSocketClient.js. -/
def step (c : Client) : Event → Client
  | Event.connectResume =>
    -- the body of `_connect` after `await this._buildUrl()` (lines
    -- 112-122): reset `_closing`, emit "connecting", install a fresh
    -- transport handle (`new WebSocket(url)` starts in CONNECTING)
    if c.pendingConnect = 0 then c
    else
      { c with pendingConnect := c.pendingConnect - 1,
               closing := false,
               statuses := c.statuses ++ ["connecting"],
               socket := some ReadyState.connecting }
  | Event.openEvt =>
    -- `socket.onopen` (lines 124-133): readyState is now OPEN; reset
    -- retries, emit "open", drain the queue (the loop re-reads
    -- `this.socket?.readyState`, which stays OPEN within the
    -- synchronous callback), start the heartbeat
    if c.socket = some ReadyState.connecting then
      let d := drainLoop (fun _ => some ReadyState.opened) 0 c.queue
      { c with socket := some ReadyState.opened,
               retries := 0,
               statuses := c.statuses ++ ["open"],
               sent := c.sent ++ d.1,
               queue := d.2,
               pingTimer := c.pingInterval != 0,
               pongTimer := false }
    else c
  | Event.closeEvt r =>
    -- `socket.onclose` (lines 163-171): stop heartbeat, emit "closed";
    -- if a client close is in progress, stop; else `_scheduleReconnect`
    -- (lines 174-183): arm the backoff timer and increment retries
    let c1 := { c with pingTimer := false, pongTimer := false,
                       statuses := c.statuses ++ ["closed"],
                       socket := c.socket.map (fun _ => ReadyState.closed) }
    if c1.closing then c1
    else
      { c1 with retries := c1.retries + 1,
                reconnectTimer := some (scheduleDelay c1.retries c1.maxBackoff r).toNat }
  | Event.errorEvt =>
    -- `socket.onerror` (lines 158-161)
    { c with statuses := c.statuses ++ ["error"] }
  | Event.msgEvt p =>
    -- `socket.onmessage` (lines 135-156): clear the pong timeout when
    -- the decoded payload is recognized as a pong, then notify every
    -- subscriber (each invocation individually guarded by try/catch)
    let c1 := if isPong p then { c with pongTimer := false } else c
    { c1 with delivered := c1.delivered ++ dispatchSubs p c1.subs }
  | Event.sendOp d =>
    -- `send` (lines 236-247)
    if c.socket = some ReadyState.opened then
      { c with sent := c.sent ++ [d] }
    else
      { c with queue := enqueue c.queueMax c.queue d }
  | Event.updateTok next =>
    -- `updateToken` (lines 252-260): `this.token = nextToken ?? this.token`
    let c1 := { c with token := match next with | some t => some t | none => c.token }
    if c1.socket = some ReadyState.opened then
      { c1 with socket := some ReadyState.closing }
    else
      -- `_maybeReconnectSoon` (lines 185-191): 200ms expedited timer
      if c1.closing = false ∧ (c1.socket = none ∨ ¬ c1.socket = some ReadyState.opened) then
        { c1 with reconnectTimer := some 200 }
      else c1
  | Event.closeOp =>
    -- `close` (lines 270-279): mark closing, stop heartbeat, cancel the
    -- reconnect timer, close and drop the transport handle
    { c with closing := true, pingTimer := false, pongTimer := false,
             reconnectTimer := none, socket := none }
  | Event.onlineEvt =>
    -- window "online" listener (line 89), registered only when the base
    -- is non-empty (the constructor returns early otherwise)
    if c.base = "" then c
    else if c.closing = false ∧ (c.socket = none ∨ ¬ c.socket = some ReadyState.opened) then
      { c with reconnectTimer := some 200 }
    else c
  | Event.offlineEvt =>
    -- window "offline" listener (line 90): `_stopHeartbeat`
    if c.base = "" then c else { c with pingTimer := false, pongTimer := false }
  | Event.hiddenEvt =>
    -- visibilitychange to hidden (line 84): `_stopHeartbeat`
    if c.base = "" then c else { c with pingTimer := false, pongTimer := false }
  | Event.visibleEvt =>
    -- visibilitychange to visible (line 85): `_startHeartbeat`
    if c.base = "" then c
    else { c with pongTimer := false, pingTimer := c.pingInterval != 0 }
  | Event.reconnectFire =>
    -- the `_reconnectTimer` callback (lines 182, 189): run `_connect`,
    -- which returns at once on an empty base and otherwise suspends at
    -- the await (a later `connectResume` finishes it)
    match c.reconnectTimer with
    | none => c
    | some _ =>
      let c1 := { c with reconnectTimer := none }
      if c1.base = "" then c1 else { c1 with pendingConnect := c1.pendingConnect + 1 }
  | Event.pingFire ts =>
    -- the `_pingTimer` interval callback (lines 196-205): if the
    -- transport is open, send a ping and arm the pong timeout
    if c.pingTimer then
      if c.socket = some ReadyState.opened then
        { c with sent := c.sent ++ [pingWire ts],
                 pongTimer := c.pongTimeout != 0 }
      else c
    else c
  | Event.pongTimeoutFire =>
    -- the `_pongTimer` callback (lines 211-215): force the transport
    -- closed (the resulting close event schedules the reconnect)
    if c.pongTimer then
      { c with pongTimer := false,
               socket := c.socket.map (fun _ => ReadyState.closing) }
    else c
  | Event.subscribeOp h =>
    -- `onMessage` (lines 262-265): `this.subscribers.add(handler)`
    { c with subs := if h ∈ c.subs then c.subs else c.subs ++ [h] }
  | Event.unsubscribeOp h =>
    -- `offMessage` (lines 266-268): `this.subscribers.delete(handler)`
    { c with subs := c.subs.erase h }

/-- The constructor (lines 40-92): store the configuration; if the base
is empty, warn and return without connecting; otherwise kick off
`_connect` (which immediately suspends at its await). -/
def initClient (base path : String) (token : Option String)
    (queueMax maxBackoff pingInterval pongTimeout : Nat) : Client :=
  { base := base, path := path, token := token,
    queueMax := queueMax, maxBackoff := maxBackoff,
    pingInterval := pingInterval, pongTimeout := pongTimeout,
    socket := none, subs := [], queue := [], retries := 0,
    closing := false, pingTimer := false, pongTimer := false,
    reconnectTimer := none,
    pendingConnect := if base = "" then 0 else 1,
    sent := [], statuses := [], delivered := [] }

/-- Run a sequence of events. -/
def steps (c : Client) (evs : List Event) : Client :=
  evs.foldl step c

/-! Concrete client states used by the witnesses and counterexamples. -/

/-- A freshly constructed client (constructor suspended inside `_connect`). -/
def cDisc : Client := initClient "ws://api.example" "/ws" none 500 15000 25000 8000

/-- A client whose transport is open. -/
def cOpen : Client :=
  { cDisc with socket := some ReadyState.opened, pendingConnect := 0 }

/-- A client whose transport is still connecting, with two queued messages. -/
def cConn : Client :=
  { cDisc with socket := some ReadyState.connecting, pendingConnect := 0,
               queue := ["a", "b"] }

/-! Helper lemmas shared by the claim theorems. -/

theorem dispatchSubs_eq_map (p : JsVal) :
    ∀ l : List Handler, dispatchSubs p l = l.map (fun h => (h.id, p)) := by
  intro l
  induction l with
  | nil => rfl
  | cons h t ih => cases hc : handlerCall h <;> simp [dispatchSubs, hc, ih]

theorem drainLoop_append (rs : Nat → Option ReadyState) :
    ∀ (i : Nat) (q : List String),
      (drainLoop rs i q).1 ++ (drainLoop rs i q).2 = q := by
  intro i q
  induction q generalizing i with
  | nil => rfl
  | cons x xs ih =>
    by_cases h : rs i = some ReadyState.opened
    · simp [drainLoop, h, ih]
    · simp [drainLoop, h]

theorem drainLoop_const_open :
    ∀ (i : Nat) (q : List String),
      drainLoop (fun _ => some ReadyState.opened) i q = (q, []) := by
  intro i q
  induction q generalizing i with
  | nil => rfl
  | cons x xs ih => simp [drainLoop, ih]

theorem enqueue_length_le (qmax : Nat) (hq : 1 ≤ qmax) :
    ∀ (q : List String) (d : String), q.length ≤ qmax →
      (enqueue qmax q d).length ≤ qmax := by
  intro q d hle
  unfold enqueue
  by_cases h : qmax ≤ q.length
  · have hlen : q.length = qmax := le_antisymm hle h
    have hne : q ≠ [] := by
      intro habs
      rw [habs] at hlen
      simp at hlen
      omega
    simp [h, List.length_tail]
    omega
  · simp [h]
    omega

theorem foldl_enqueue_length_le (qmax : Nat) (hq : 1 ≤ qmax) :
    ∀ (ds : List String) (q : List String), q.length ≤ qmax →
      (ds.foldl (enqueue qmax) q).length ≤ qmax := by
  intro ds
  induction ds with
  | nil => intro q h; simpa using h
  | cons d t ih =>
    intro q h
    exact ih (enqueue qmax q d) (enqueue_length_le qmax hq q d h)

/-! The claim theorems. -/

/-- Claim C3 (counterexample): the claim quantifies over every
configured maximum queue size, but with `queueMax = 0` a single `send`
while disconnected leaves the queue at length 1, which exceeds the
configured maximum of 0 — the code shifts from an empty queue (a no-op)
and then pushes unconditionally. -/
theorem queue_bounded_cex : ¬ (enqueue 0 [] "A").length ≤ 0 := by decide

/-- Claim C3 (amended): for every configured maximum queue size of at
least 1 and every sequence of sends while the connection is not open,
the queue length never exceeds the configured maximum; an insertion
into a full queue evicts exactly the oldest pending entry before
appending, and an insertion into a non-full queue only appends; `send`
while not open enqueues via exactly this policy; with `queueMax = 2`,
sending A then B then C while disconnected leaves exactly `[B, C]`. -/
theorem queue_bounded_amended :
    (∀ (qmax : Nat) (q : List String) (d : String), 1 ≤ qmax → q.length ≤ qmax →
      (enqueue qmax q d).length ≤ qmax
      ∧ (q.length = qmax → enqueue qmax q d = q.tail ++ [d])
      ∧ (q.length < qmax → enqueue qmax q d = q ++ [d]))
    ∧ (∀ (qmax : Nat) (ds : List String), 1 ≤ qmax →
      (ds.foldl (enqueue qmax) []).length ≤ qmax)
    ∧ (∀ (c : Client) (d : String), ¬ c.socket = some ReadyState.opened →
      (step c (Event.sendOp d)).queue = enqueue c.queueMax c.queue d)
    ∧ ["A", "B", "C"].foldl (enqueue 2) [] = ["B", "C"] := by
  refine ⟨?_, ?_, ?_, by decide⟩
  · intro qmax q d h1 hle
    refine ⟨enqueue_length_le qmax h1 q d hle, ?_, ?_⟩
    · intro hfull
      unfold enqueue
      rw [if_pos (le_of_eq hfull.symm)]
    · intro hlt
      unfold enqueue
      rw [if_neg (not_le_of_lt hlt)]
  · intro qmax ds h1
    exact foldl_enqueue_length_le qmax h1 ds [] (by simp)
  · intro c d h
    simp [step, h]

/-- Claim C3 witness: a full queue of size 2 stays at length 2 after an
insertion, and the B, C scenario evaluates as claimed. -/
theorem queue_bounded_amended_witness :
    (enqueue 2 ["B", "C"] "D").length ≤ 2
    ∧ (["A", "B", "C"].foldl (enqueue 2) []).length ≤ 2 :=
  ⟨(queue_bounded_amended.1 2 ["B", "C"] "D" (by decide) (by decide)).1,
   queue_bounded_amended.2.1 2 ["A", "B", "C"] (by decide)⟩

/-- Claim C4: for all n ≥ 1 (the retry counter holding n-1 before the
n-th retry), the scheduled delay lies in
`[0, min(300 * 2^(n-1), maxBackoff)]` for every value drawn by the
random source; the first retry after a reset is bounded by 300 ms; the
retry counter is reset to zero by a successful open and incremented by
every non-terminal close. -/
theorem retry_delay_bounds :
    (∀ (n maxB : Nat) (r : ℚ), 1 ≤ n → 0 ≤ r → r < 1 →
      0 ≤ scheduleDelay (n - 1) maxB r
      ∧ scheduleDelay (n - 1) maxB r ≤ ((min (300 * 2 ^ (n - 1)) maxB : Nat) : ℤ)
      ∧ scheduleDelay 0 maxB r ≤ 300)
    ∧ (∀ c : Client, c.socket = some ReadyState.connecting →
        (step c Event.openEvt).retries = 0)
    ∧ (∀ (c : Client) (r : ℚ), c.closing = false →
        (step c (Event.closeEvt r)).retries = c.retries + 1) := by
  refine ⟨?_, ?_, ?_⟩
  · intro n maxB r _ hr0 hr1
    have cap : ∀ k : Nat,
        scheduleDelay k maxB r ≤ ((min (300 * 2 ^ k) maxB : Nat) : ℤ) := by
      intro k
      unfold scheduleDelay
      have hB : (0 : ℚ) ≤ ((min (300 * 2 ^ k) maxB : Nat) : ℚ) := Nat.cast_nonneg _
      have h1 : r * ((min (300 * 2 ^ k) maxB : Nat) : ℚ)
          ≤ ((min (300 * 2 ^ k) maxB : Nat) : ℚ) :=
        mul_le_of_le_one_left hB hr1.le
      calc Int.floor (r * ((min (300 * 2 ^ k) maxB : Nat) : ℚ))
          ≤ Int.floor ((min (300 * 2 ^ k) maxB : Nat) : ℚ) := Int.floor_mono h1
        _ = ((min (300 * 2 ^ k) maxB : Nat) : ℤ) := Int.floor_natCast _
    refine ⟨?_, cap (n - 1), ?_⟩
    · exact Int.floor_nonneg.mpr (mul_nonneg hr0 (Nat.cast_nonneg _))
    · have h2 : ((min (300 * 2 ^ 0) maxB : Nat) : ℤ) ≤ 300 := by
        have h3 : min (300 * 2 ^ 0) maxB ≤ 300 := by
          have := Nat.min_le_left (300 * 2 ^ 0) maxB
          omega
        exact_mod_cast h3
      exact le_trans (cap 0) h2
  · intro c h
    simp [step, h]
  · intro c r h
    simp [step, h]

/-- Claim C4 witness: a concrete draw for the first retry after a reset
(retries = 0, maxBackoff = 15000, r = 1/2) lies in the stated bound. -/
theorem retry_delay_bounds_witness :
    (0 ≤ scheduleDelay 0 15000 (1 / 2)
      ∧ scheduleDelay 0 15000 (1 / 2) ≤ ((min (300 * 2 ^ 0) 15000 : Nat) : ℤ))
    ∧ (step cConn Event.openEvt).retries = 0
    ∧ (step cDisc (Event.closeEvt (1 / 2))).retries = cDisc.retries + 1 :=
  ⟨⟨(retry_delay_bounds.1 1 15000 (1 / 2) (by norm_num) (by norm_num) (by norm_num)).1,
    (retry_delay_bounds.1 1 15000 (1 / 2) (by norm_num) (by norm_num) (by norm_num)).2.1⟩,
   retry_delay_bounds.2.1 cConn (by decide),
   retry_delay_bounds.2.2 cDisc (1 / 2) (by decide)⟩

/-- Claim C5: `send(payload)` with the transport open hands the encoded
payload to the transport and leaves the queue unchanged; with the
transport not open (disconnected or connecting) it appends via the
bounded-queue policy and hands nothing to the transport. -/
theorem send_open_vs_queued :
    ∀ (c : Client) (d : String),
      (c.socket = some ReadyState.opened →
        (step c (Event.sendOp d)).sent = c.sent ++ [d]
        ∧ (step c (Event.sendOp d)).queue = c.queue)
      ∧ (¬ c.socket = some ReadyState.opened →
        (step c (Event.sendOp d)).queue = enqueue c.queueMax c.queue d
        ∧ (step c (Event.sendOp d)).sent = c.sent) := by
  intro c d
  constructor
  · intro h
    constructor <;> simp [step, h]
  · intro h
    constructor <;> simp [step, h]

/-- Claim C5 witness: sending on an open client delivers to the
transport; sending on a disconnected client only enqueues. -/
theorem send_open_vs_queued_witness :
    (step cOpen (Event.sendOp "m")).sent = cOpen.sent ++ ["m"]
    ∧ (step cDisc (Event.sendOp "m")).queue = enqueue cDisc.queueMax cDisc.queue "m" :=
  ⟨((send_open_vs_queued cOpen "m").1 (by decide)).1,
   ((send_open_vs_queued cDisc "m").2 (by decide)).1⟩

/-- A decoded pong frame, `{"type":"pong"}`. -/
def pongMsg : JsVal := JsVal.obj [("type", JsVal.str "pong")]

/-- An open client with one registered subscriber and an armed pong
timeout. -/
def cSub : Client := { cOpen with subs := [⟨7, false⟩], pongTimer := true }

/-- Claim C1 (counterexample): the frame `{"type":"pong"}` is recognized
as a liveness acknowledgment, yet the registered subscriber handler 7 is
invoked with exactly that frame — the frame is not excluded from
subscriber dispatch (the `onmessage` handler clears the pong timeout on
`isPong` but falls through to `subscribers.forEach` unconditionally). -/
theorem pong_dispatched_cex :
    isPong pongMsg = true
    ∧ (step cSub (Event.msgEvt pongMsg)).delivered = [(7, pongMsg)] :=
  ⟨rfl, rfl⟩

/-- Claim C1 (amended): an inbound frame recognized as a liveness
acknowledgment clears the pending pong timeout, but it is not excluded
from subscriber dispatch: every registered subscriber is invoked with it
like any other frame. -/
theorem pong_clears_timeout_still_dispatched :
    ∀ (c : Client) (p : JsVal), isPong p = true →
      (step c (Event.msgEvt p)).pongTimer = false
      ∧ (step c (Event.msgEvt p)).delivered
          = c.delivered ++ c.subs.map (fun h => (h.id, p)) := by
  intro c p hp
  constructor <;> simp [step, hp, dispatchSubs_eq_map]

/-- Claim C1 witness: the armed pong timeout of `cSub` is cleared by the
pong frame, and the frame reaches the subscriber. -/
theorem pong_clears_timeout_still_dispatched_witness :
    (step cSub (Event.msgEvt pongMsg)).pongTimer = false
    ∧ (step cSub (Event.msgEvt pongMsg)).delivered
        = cSub.delivered ++ cSub.subs.map (fun h => (h.id, pongMsg)) :=
  pong_clears_timeout_still_dispatched cSub pongMsg rfl

/-- Claim C2 (code-bug witness): `close()` is not terminal. In the
freshly constructed client `cDisc` the constructor's `_connect` call is
suspended at `await this._buildUrl()`; `close()` then runs (setting
`_closing`, cancelling timers, dropping the handle); when the suspended
`_connect` resumes it sets `_closing = false`, emits a Connecting
transition and installs a fresh transport handle — contradicting the
claim that after `close()` no connection attempt ever creates a
transport handle and no Connecting transition ever occurs. -/
theorem close_then_inflight_resume_reconnects :
    (steps cDisc [Event.closeOp, Event.connectResume]).socket
        = some ReadyState.connecting
    ∧ (steps cDisc [Event.closeOp, Event.connectResume]).statuses = ["connecting"]
    ∧ (steps cDisc [Event.closeOp, Event.connectResume]).closing = false := by
  decide

/-- Claim C6: the `onopen` drain hands over a prefix of the queue in its
exact enqueue order, stopping when the transport leaves the open state,
with the untouched suffix staying queued; within the synchronous open
callback the full queue is delivered before any message newly sent after
the transition. -/
theorem drain_fifo_on_open :
    (∀ (rs : Nat → Option ReadyState) (i : Nat) (q : List String),
      (drainLoop rs i q).1 ++ (drainLoop rs i q).2 = q)
    ∧ (∀ c : Client, c.socket = some ReadyState.connecting →
      (step c Event.openEvt).sent = c.sent ++ c.queue
      ∧ (step c Event.openEvt).queue = []
      ∧ ∀ x : String,
          (step (step c Event.openEvt) (Event.sendOp x)).sent
            = c.sent ++ c.queue ++ [x]) := by
  refine ⟨drainLoop_append, ?_⟩
  intro c h
  refine ⟨by simp [step, h, drainLoop_const_open], by simp [step, h, drainLoop_const_open], ?_⟩
  intro x
  simp [step, h, drainLoop_const_open]

/-- Claim C6 witness: a connecting client with queue `["a", "b"]`
delivers exactly `["a", "b"]` on open, empties the queue, and a
subsequent send lands after the drained messages. -/
theorem drain_fifo_on_open_witness :
    (step cConn Event.openEvt).sent = cConn.sent ++ cConn.queue
    ∧ (step (step cConn Event.openEvt) (Event.sendOp "x")).sent
        = cConn.sent ++ cConn.queue ++ ["x"] :=
  ⟨(drain_fifo_on_open.2 cConn (by decide)).1,
   (drain_fifo_on_open.2 cConn (by decide)).2.2 "x"⟩

/-- A client holding a stored token "a" (otherwise `cDisc`). -/
def cTok : Client := { cDisc with token := some "a" }

/-- Claim C8 (counterexample): the claim says `updateToken(next)`
replaces the stored token with `next` for every argument, but
`this.token = nextToken ?? this.token` keeps the old token when `next`
is null/undefined: with stored token "a", after `updateToken(null)` the
token is still "a", not null. -/
theorem updateToken_null_cex :
    ¬ (step cTok (Event.updateTok none)).token = none := by decide

/-- Claim C8 (amended): `updateToken(next)` replaces the stored token
with `next` when `next` is neither null nor undefined (a nullish `next`
keeps the previous token); if the transport is open it force-closes it
so the manager reconnects with the new credential; if not open and no
terminal close has been requested, it arms an expedited 200 ms
reconnect timer, replacing any pending backoff timer. -/
theorem updateToken_amended :
    ∀ (c : Client) (t : String),
      (step c (Event.updateTok (some t))).token = some t
      ∧ (step c (Event.updateTok none)).token = c.token
      ∧ (c.socket = some ReadyState.opened →
          (step c (Event.updateTok (some t))).socket = some ReadyState.closing)
      ∧ (¬ c.socket = some ReadyState.opened → c.closing = false →
          (step c (Event.updateTok (some t))).reconnectTimer = some 200
          ∧ (step c (Event.updateTok (some t))).socket = c.socket) := by
  intro c t
  refine ⟨?_, ?_, ?_, ?_⟩
  · by_cases h : c.socket = some ReadyState.opened
    · simp [step, h]
    · simp [step, h]
      split <;> rfl
  · by_cases h : c.socket = some ReadyState.opened
    · simp [step, h]
    · simp [step, h]
      split <;> rfl
  · intro h
    simp [step, h]
  · intro h hcl
    have h2 : c.closing = false ∧ (c.socket = none ∨ ¬ c.socket = some ReadyState.opened) :=
      ⟨hcl, Or.inr h⟩
    constructor <;> simp [step, h, h2]

/-- Claim C8 witness: on an open client the transport is force-closed;
on a disconnected client the expedited 200 ms reconnect timer is armed. -/
theorem updateToken_amended_witness :
    (step cOpen (Event.updateTok (some "t2"))).socket = some ReadyState.closing
    ∧ (step cDisc (Event.updateTok (some "t2"))).reconnectTimer = some 200 :=
  ⟨(updateToken_amended cOpen "t2").2.2.1 (by decide),
   ((updateToken_amended cDisc "t2").2.2.2 (by decide) (by decide)).1⟩

/-- Claim C9: dispatch of an inbound frame invokes every registered
handler with that frame even when some registered handler raises (each
invocation is individually guarded, the fault is only logged), and the
subscriber registry is left unchanged by the dispatch. -/
theorem handler_fault_isolated :
    ∀ (c : Client) (p : JsVal) (j : Nat) (h : Handler),
      Handler.mk j true ∈ c.subs → h ∈ c.subs →
      (h.id, p) ∈ (step c (Event.msgEvt p)).delivered
      ∧ (step c (Event.msgEvt p)).subs = c.subs := by
  intro c p j h _ hh
  constructor
  · have hdel : (step c (Event.msgEvt p)).delivered
        = c.delivered ++ c.subs.map (fun h => (h.id, p)) := by
      by_cases hp : isPong p <;> simp [step, hp, dispatchSubs_eq_map]
    rw [hdel]
    exact List.mem_append_right _ (List.mem_map_of_mem _ hh)
  · by_cases hp : isPong p <;> simp [step, hp]

/-- An open client with a throwing subscriber 1 and a healthy
subscriber 2. -/
def cTwo : Client := { cOpen with subs := [⟨1, true⟩, ⟨2, false⟩] }

/-- Claim C9 witness: with subscriber 1 throwing, subscriber 2 still
receives the dispatched frame and the registry is unchanged. -/
theorem handler_fault_isolated_witness :
    (2, JsVal.str "hello") ∈ (step cTwo (Event.msgEvt (JsVal.str "hello"))).delivered
    ∧ (step cTwo (Event.msgEvt (JsVal.str "hello"))).subs = cTwo.subs :=
  handler_fault_isolated cTwo (JsVal.str "hello") 1 ⟨2, false⟩ (by decide) (by decide)

/-- Invariant of a client constructed with an empty base: no transport
handle exists and no `_connect` body is in flight. -/
def NoSocketInv (c : Client) : Prop :=
  c.base = "" ∧ c.socket = none ∧ c.pendingConnect = 0

theorem noSocketInv_step (c : Client) (e : Event) (h : NoSocketInv c) :
    NoSocketInv (step c e) := by
  obtain ⟨hb, hs, hp⟩ := h
  cases e <;>
    simp only [step, hb, hs, hp, NoSocketInv] <;>
    first
      | exact ⟨hb, hs, hp⟩
      | (refine ⟨?_, ?_, ?_⟩ <;> (repeat' split) <;> simp_all)

theorem noSocketInv_steps (evs : List Event) :
    ∀ c : Client, NoSocketInv c → NoSocketInv (steps c evs) := by
  induction evs with
  | nil => intro c h; exact h
  | cons e t ih =>
    intro c h
    exact ih (step c e) (noSocketInv_step c e h)

/-- Claim C10: a client constructed with an empty base never creates a
transport handle — the socket field stays `none` after every sequence of
public operations and events — while `send` still enqueues into the
bounded queue, `onMessage`/`offMessage` still maintain the subscriber
set, and `updateToken` and `close` still complete (leaving the socket
absent). -/
theorem empty_base_never_connects
    (path : String) (tok : Option String) (qm mb pingI pongT : Nat)
    (evs : List Event) (d : String) (hd : Handler) (t : Option String) :
    let C := steps (initClient "" path tok qm mb pingI pongT) evs
    C.socket = none
    ∧ (step C (Event.sendOp d)).queue = enqueue C.queueMax C.queue d
    ∧ (step C (Event.subscribeOp hd)).subs
        = (if hd ∈ C.subs then C.subs else C.subs ++ [hd])
    ∧ (step C (Event.unsubscribeOp hd)).subs = C.subs.erase hd
    ∧ (step C (Event.updateTok t)).socket = none
    ∧ (step C Event.closeOp).socket = none := by
  intro C
  have hInv : NoSocketInv C :=
    noSocketInv_steps evs _ ⟨rfl, rfl, by simp [initClient]⟩
  obtain ⟨hb, hs, hp⟩ := hInv
  refine ⟨hs, ?_, ?_, ?_, ?_, ?_⟩
  · have h : ¬ C.socket = some ReadyState.opened := by simp [hs]
    simp [step, h]
  · simp [step]
  · simp [step]
  · cases t <;> (simp [step, hs]; split <;> rfl)
  · simp [step]

theorem https_not_prefix_of_ws (x : Str) :
    ("https://".data.isPrefixOf ("ws://".data ++ x)) = false := rfl

theorem http_not_prefix_of_https (x : Str) :
    ("http://".data.isPrefixOf ("https://".data ++ x)) = false := rfl

/-- Claim C7: the connect target is the normalized base joined to the
path (defaulting to "/ws") with exactly one separating slash — the code
adds a slash exactly when the path does not already start with one —
followed by `?token=<percent-encoded credential>` exactly when a token
resolves (statically or from the provider, provided the URL carries no
prior query); when no token resolves (provider rejected or absent, no
static token) the target is the bare joined URL and `buildUrl` still
returns it (no exception propagates). Normalization strips trailing
slashes after trimming and rewrites a leading `http://` to `ws://` and
a leading `https://` to `wss://`. -/
theorem connect_target_shape :
    (∀ (base path : Str) (tokOpt pr : Option Str) (t : Str),
      resolveTok tokOpt pr = some t → t.isEmpty = false →
      (joinUrl base (if path.isEmpty then "/ws".data else path)).contains '?' = false →
      buildUrl base path tokOpt pr
        = joinUrl base (if path.isEmpty then "/ws".data else path)
          ++ '?' :: "token=".data ++ encodeURIComponent t)
    ∧ (∀ base path : Str, buildUrl base path none none
        = joinUrl base (if path.isEmpty then "/ws".data else path))
    ∧ (∀ base path : Str, path.isEmpty = false → ("/".data.isPrefixOf path) = false →
        joinUrl base path = normalizeBase base ++ '/' :: path)
    ∧ (∀ base path : Str, ("/".data.isPrefixOf path) = true →
        joinUrl base path = normalizeBase base ++ path)
    ∧ (∀ s : Str, ("http://".data.isPrefixOf (stripTrailingSlashes (jsTrim s))) = true →
        normalizeBase s = "ws://".data ++ (stripTrailingSlashes (jsTrim s)).drop 7)
    ∧ (∀ s : Str, ("https://".data.isPrefixOf (stripTrailingSlashes (jsTrim s))) = true →
        normalizeBase s = "wss://".data ++ (stripTrailingSlashes (jsTrim s)).drop 8) := by
  refine ⟨?_, ?_, ?_, ?_, ?_, ?_⟩
  · intro base path tokOpt pr t hres hne hq
    unfold buildUrl
    rw [hres]
    simp [hne] at hq ⊢
    simp [hq]
  · intro base path
    simp [buildUrl, resolveTok, strTruthy]
  · intro base path hpe hpre
    simp [joinUrl, hpe, hpre]
  · intro base path h
    have hne : path.isEmpty = false := by
      cases path
      · exact absurd h (by decide)
      · rfl
    simp [joinUrl, hne, h]
  · intro s h
    cases hs : s.isEmpty
    · simp [normalizeBase, hs, h, https_not_prefix_of_ws]
    · have h0 : s = [] := List.isEmpty_iff.mp hs
      subst h0
      exact absurd h (by decide)
  · intro s h
    obtain ⟨rest, hrest⟩ := List.isPrefixOf_iff_prefix.mp h
    cases hs : s.isEmpty
    · have hhttp : ("http://".data.isPrefixOf (stripTrailingSlashes (jsTrim s))) = false := by
        rw [← hrest]
        exact http_not_prefix_of_https rest
      simp [normalizeBase, hs, hhttp, h]
    · have h0 : s = [] := List.isEmpty_iff.mp hs
      subst h0
      exact absurd h (by decide)

/-- Claim C7 witness: a secure HTTP base with trailing slash, the
default path, and a static token containing a space produce exactly the
normalized, joined, token-carrying target; with no token at all the
bare joined URL is produced. -/
theorem connect_target_shape_witness :
    buildUrl "https://api.example.com/".data [] (some "ab c".data) none
      = joinUrl "https://api.example.com/".data "/ws".data
        ++ '?' :: "token=".data ++ encodeURIComponent "ab c".data
    ∧ buildUrl "https://api.example.com/".data [] none none
      = joinUrl "https://api.example.com/".data "/ws".data := by
  constructor
  · have h := connect_target_shape.1 "https://api.example.com/".data []
      (some "ab c".data) none "ab c".data (by decide) (by decide) (by decide)
    simpa using h
  · have h := connect_target_shape.2.1 "https://api.example.com/".data []
    simpa using h

end WS
